import Mathlib

/-!
Verification of `Silicon/CoffeelakePkg/Library/FirmwareUpdateLib/FirmwareUpdateLib.c`
(slimbootloader firmware-update library).

The C functions are shallowly embedded as Lean functions over `Nat`, with all
machine-integer truncation made explicit (`% 2^32` for `UINT32`, `% 2^64` for
`UINT64`/`UINTN` on the X64 build).  Hardware and out-of-file collaborators
(the SPI flash map lookup, the memory-mapped top-swap register) are passed in
as explicit parameters.
-/

/-- Number of values of a `UINT32` (2^32); `UINT32` arithmetic is mod this. -/
def UINT32_LIMIT : Nat := 4294967296

/-- Number of values of a `UINT64` (2^64); `UINT64` arithmetic is mod this. -/
def UINT64_LIMIT : Nat := 18446744073709551616

/-- `UINTN` is the native pointer width; the X64 build has 64-bit pointers. -/
def UINTN_LIMIT : Nat := UINT64_LIMIT

/-- `UINT32` addition: wraps mod 2^32. -/
def add32 (a b : Nat) : Nat := (a + b) % UINT32_LIMIT

/-- `UINT32` multiplication: wraps mod 2^32. -/
def mul32 (a b : Nat) : Nat := (a * b) % UINT32_LIMIT

/-- `UINT32` subtraction: two's-complement wrap-around mod 2^32. -/
def sub32 (a b : Nat) : Nat :=
  (a % UINT32_LIMIT + (UINT32_LIMIT - b % UINT32_LIMIT)) % UINT32_LIMIT

/-- The EFI status codes returned by the functions modelled here. -/
inductive EFI_STATUS where
  | EFI_SUCCESS : EFI_STATUS
  | EFI_INVALID_PARAMETER : EFI_STATUS
  | EFI_NOT_FOUND : EFI_STATUS
  deriving DecidableEq

/-- Modelled from the spec: the firmware-update state machine has two
distinguished selector values, `PartA` and `PartB`; their numeric encodings
live in `Library/FirmwareUpdateLib.h`, which is not among the sources.  Only
the two equality tests in `GetFirmwareUpdateInfo` depend on them, so any two
distinct values are faithful; the header's values are used. -/
def FW_UPDATE_SM_PART_A : Nat := 0x7E

/-- Modelled from the spec: see `FW_UPDATE_SM_PART_A`. -/
def FW_UPDATE_SM_PART_B : Nat := 0x7D

/-- `FIRMWARE_UPDATE_POLICY.Fields`: the two bit-fields the code reads. -/
structure FIRMWARE_UPDATE_POLICY where
  updatePartitionB : Nat
  stateMachine : Nat
  deriving DecidableEq

/-- One entry of `FIRMWARE_UPDATE_PARTITION.FwRegion`. -/
structure FIRMWARE_UPDATE_REGION where
  toUpdateAddress : Nat
  updateSize : Nat
  sourceAddress : Nat
  deriving DecidableEq

/-- The update plan returned through `*PartitionInfo`. -/
structure FIRMWARE_UPDATE_PARTITION where
  regionCount : Nat
  fwRegion : List FIRMWARE_UPDATE_REGION
  deriving DecidableEq

/-- The flash map facts this library reads: `RomSize`, plus the Stage1A
component's `(base, size)` entries for the primary and the backup copy
(the signature-keyed table restricted to the one signature queried here). -/
structure FLASH_MAP where
  romSize : Nat
  stage1APrimary : Option (Nat × Nat)
  stage1ABackup : Option (Nat × Nat)
  deriving DecidableEq

/-- The three region offsets computed inside `GetFirmwareUpdateInfo`. -/
structure LayoutOffsets where
  topSwapRegionOffset : Nat
  redundantRegionOffset : Nat
  nonRedundantRegionOffset : Nat
  deriving DecidableEq

/-- Lines 291-300 of `GetFirmwareUpdateInfo`: the offset computation for the
three regions, in `UINT32` arithmetic, with the copy-B adjustment applied when
`FwPolicy.Fields.UpdatePartitionB == 1`.  This realizes the spec's
`ComputeLayout`. -/
def computeLayoutOffsets (romSize topSwapRegionSize redundantRegionSize nonRedundantRegionSize : Nat)
    (updatePartitionB : Bool) : LayoutOffsets :=
  let nonRedundantRegionOffset :=
    sub32 (sub32 romSize (mul32 (add32 topSwapRegionSize redundantRegionSize) 2))
      nonRedundantRegionSize
  let topSwapRegionOffset := sub32 romSize topSwapRegionSize
  let redundantRegionOffset :=
    sub32 (sub32 topSwapRegionOffset topSwapRegionSize) redundantRegionSize
  if updatePartitionB then
    ⟨sub32 topSwapRegionOffset topSwapRegionSize,
     sub32 redundantRegionOffset redundantRegionSize,
     nonRedundantRegionOffset⟩
  else
    ⟨topSwapRegionOffset, redundantRegionOffset, nonRedundantRegionOffset⟩

/-- `GetFirmwareUpdateInfo` (lines 239-347).  `imageHdr` is the numeric value
of the `ImageHdr` pointer, `hdrSize` is `sizeof(EFI_FW_MGMT_CAP_IMAGE_HEADER)`,
`flashMap` is what `GetFlashMapPtr()` returns (`none` for `NULL`), and the
three sizes are what `GetRegionInfo` stores through its out parameters.
Regions 0 and 1 compute `SourceAddress` at `UINTN` width from the full
pointer; region 2 first casts `ImageHdr` to `UINT32` (line 333), so only the
low 32 bits of the pointer enter its sum. -/
def GetFirmwareUpdateInfo (imageHdr hdrSize : Nat) (fwPolicy : FIRMWARE_UPDATE_POLICY)
    (flashMap : Option FLASH_MAP)
    (topSwapRegionSize redundantRegionSize nonRedundantRegionSize : Nat) :
    Except EFI_STATUS FIRMWARE_UPDATE_PARTITION :=
  match flashMap with
  | none => .error .EFI_NOT_FOUND
  | some fm =>
    let l := computeLayoutOffsets fm.romSize topSwapRegionSize redundantRegionSize
      nonRedundantRegionSize (fwPolicy.updatePartitionB == 1)
    let region0 : FIRMWARE_UPDATE_REGION :=
      ⟨l.topSwapRegionOffset, topSwapRegionSize,
        (imageHdr + hdrSize + l.topSwapRegionOffset) % UINTN_LIMIT⟩
    let region1 : FIRMWARE_UPDATE_REGION :=
      ⟨l.redundantRegionOffset, redundantRegionSize,
        (imageHdr + hdrSize + l.redundantRegionOffset) % UINTN_LIMIT⟩
    if fwPolicy.stateMachine == FW_UPDATE_SM_PART_A ||
        fwPolicy.stateMachine == FW_UPDATE_SM_PART_B then
      let region2 : FIRMWARE_UPDATE_REGION :=
        ⟨l.nonRedundantRegionOffset, nonRedundantRegionSize,
          (imageHdr % UINT32_LIMIT + hdrSize + l.nonRedundantRegionOffset) % UINTN_LIMIT⟩
      .ok ⟨3, [region0, region1, region2]⟩
    else
      .ok ⟨2, [region0, region1]⟩

/-- The region list of a plan; empty when the call failed (on the failure
path the code stores nothing through `*PartitionInfo`). -/
def planRegionList : Except EFI_STATUS FIRMWARE_UPDATE_PARTITION → List FIRMWARE_UPDATE_REGION
  | .ok p => p.fwRegion
  | .error _ => []

/-- The `RegionCount` of a plan; 0 when the call failed. -/
def planRegionCount : Except EFI_STATUS FIRMWARE_UPDATE_PARTITION → Nat
  | .ok p => p.regionCount
  | .error _ => 0

/-- Whether the call produced a plan at all. -/
def planBuilt : Except EFI_STATUS FIRMWARE_UPDATE_PARTITION → Bool
  | .ok _ => true
  | .error _ => false

/-- A region's byte interval lies inside `[0, romSize)`. -/
def regionWithin (r : FIRMWARE_UPDATE_REGION) (romSize : Nat) : Prop :=
  r.toUpdateAddress + r.updateSize ≤ romSize

/-- Two regions' byte intervals `[offset, offset+size)` do not intersect. -/
def regionsDisjoint (r1 r2 : FIRMWARE_UPDATE_REGION) : Prop :=
  r1.toUpdateAddress + r1.updateSize ≤ r2.toUpdateAddress ∨
  r2.toUpdateAddress + r2.updateSize ≤ r1.toUpdateAddress

/-- All regions of a plan lie inside `[0, romSize)`. -/
def planWithin (e : Except EFI_STATUS FIRMWARE_UPDATE_PARTITION) (romSize : Nat) : Prop :=
  ∀ r ∈ planRegionList e, regionWithin r romSize

/-- The regions of a plan are pairwise disjoint. -/
def planDisjoint (e : Except EFI_STATUS FIRMWARE_UPDATE_PARTITION) : Prop :=
  List.Pairwise regionsDisjoint (planRegionList e)

/-- Modelled from the spec: `GetComponentInfoByPartition` (BootloaderCommonLib,
not among the sources) looks a component's `(base, size)` up in the flash map's
signature-keyed table for the requested copy and reports `EFI_NOT_FOUND` when
the entry is absent.  Only the Stage1A signature is queried by this library,
so the lookup is specialised to that component's two entries. -/
def GetComponentInfoByPartition (fm : FLASH_MAP) (isBackupPartition : Bool) :
    Except EFI_STATUS (Nat × Nat) :=
  match (if isBackupPartition then fm.stage1ABackup else fm.stage1APrimary) with
  | some e => .ok e
  | none => .error .EFI_NOT_FOUND

/-- Lines 195-198 of `PlatformGetStage1AOffset`: the Stage1A lookup with the
fall-back from the backup copy to the primary copy on `EFI_NOT_FOUND`. -/
def stage1ALookup (fm : FLASH_MAP) (isBackupPartition : Bool) :
    Except EFI_STATUS (Nat × Nat) :=
  let status := GetComponentInfoByPartition fm isBackupPartition
  if isBackupPartition then
    match status with
    | .error .EFI_NOT_FOUND => GetComponentInfoByPartition fm false
    | _ => status
  else
    status

/-- `PlatformGetStage1AOffset` (lines 173-216), with the two out parameters
returned as an `Except` value (the `NULL`-pointer check on the out parameters
is not representable for returned values and is omitted).  On success the
returned pair is `(*Base, *Size)` after the two `*Base` rewrites: first the
ROM-relative offset `(UINT32)(RomSize - (0x100000000ULL - *Base))`, then the
capsule-absolute address `(UINT32)((UINTN)ImageHdr + hdrSize + *Base)`. -/
def PlatformGetStage1AOffset (imageHdr hdrSize : Nat) (isBackupPartition : Bool)
    (flashMap : Option FLASH_MAP) : Except EFI_STATUS (Nat × Nat) :=
  match flashMap with
  | none => .error .EFI_NOT_FOUND
  | some fm =>
    match stage1ALookup fm isBackupPartition with
    | .error e => .error e
    | .ok (base0, size) =>
      let base1 := (fm.romSize % UINT32_LIMIT +
        (UINT64_LIMIT - (0x100000000 - base0 % UINT32_LIMIT) % UINT64_LIMIT)) %
        UINT64_LIMIT % UINT32_LIMIT
      let base2 := (imageHdr + hdrSize + base1) % UINTN_LIMIT % UINT32_LIMIT
      .ok (base2, size)

/-- `BOOT_PARTITION` enumerator `PrimaryPartition` (a C enum is an integer). -/
def PrimaryPartition : Nat := 0

/-- `BOOT_PARTITION` enumerator `BackupPartition`. -/
def BackupPartition : Nat := 1

/-- `BIT0`. -/
def BIT0 : Nat := 1

/-- One run of `SetBootPartition` recorded in order: the first
`MmioRead32` value, the value passed to `MmioWrite32`, the read-back value,
and the returned status. -/
structure SetBootPartitionRun where
  firstRead : Nat
  written : Nat
  readBack : Nat
  status : EFI_STATUS
  deriving DecidableEq

/-- `SetBootPartition` (lines 122-153).  The top-swap register is modelled by
`hw`, mapping the list of 32-bit writes performed so far to the value the next
`MmioRead32` returns (so a faulty device may read back something other than
what was written).  `0xFFFFFFFE` is `~BIT0` at `UINT32` width. -/
def SetBootPartition (hw : List Nat → Nat) (partition : Nat) : SetBootPartitionRun :=
  let data0 := hw [] % UINT32_LIMIT
  let data1 :=
    if partition == BackupPartition then data0 ||| BIT0
    else if partition == PrimaryPartition then data0 &&& 0xFFFFFFFE
    else data0
  let readBack := hw [data1] % UINT32_LIMIT
  ⟨data0, data1, readBack, .EFI_SUCCESS⟩

/-! ## Arithmetic helper lemmas -/

/-- Wrap-around subtraction collapses to exact subtraction when it cannot
underflow. -/
theorem wrapSub_eq (L a b : Nat) (hb : b ≤ a) (ha : a < L) : (a + (L - b)) % L = a - b := by
  have h : a + (L - b) = L + (a - b) := by omega
  rw [h, Nat.add_mod_left, Nat.mod_eq_of_lt (by omega)]

/-- `sub32` is exact subtraction in the no-underflow range. -/
theorem sub32_of_le (a b : Nat) (hb : b ≤ a) (ha : a < UINT32_LIMIT) : sub32 a b = a - b := by
  unfold sub32
  rw [Nat.mod_eq_of_lt ha, Nat.mod_eq_of_lt (Nat.lt_of_le_of_lt hb ha)]
  exact wrapSub_eq UINT32_LIMIT a b hb ha

/-- `add32` is exact addition in the no-overflow range. -/
theorem add32_of_lt (a b : Nat) (h : a + b < UINT32_LIMIT) : add32 a b = a + b := by
  unfold add32
  exact Nat.mod_eq_of_lt h

/-- `mul32` is exact multiplication in the no-overflow range. -/
theorem mul32_of_lt (a b : Nat) (h : a * b < UINT32_LIMIT) : mul32 a b = a * b := by
  unfold mul32
  exact Nat.mod_eq_of_lt h

/-- Under the layout precondition `2*(ts+rr)+nr <= romSize < 2^32` no
`UINT32` operation in `computeLayoutOffsets` wraps, and the offsets take
their exact arithmetic values. -/
theorem computeLayoutOffsets_spec (romSize ts rr nr : Nat) (b : Bool)
    (hfit : 2 * (ts + rr) + nr ≤ romSize) (hrom : romSize < UINT32_LIMIT) :
    computeLayoutOffsets romSize ts rr nr b =
      ⟨romSize - ts - (if b then ts else 0),
       romSize - 2 * ts - rr - (if b then rr else 0),
       romSize - 2 * (ts + rr) - nr⟩ := by
  have h1 : add32 ts rr = ts + rr := add32_of_lt ts rr (by omega)
  have h2 : mul32 (ts + rr) 2 = 2 * (ts + rr) := by
    rw [mul32_of_lt (ts + rr) 2 (by omega)]; ring
  have h3 : sub32 romSize (2 * (ts + rr)) = romSize - 2 * (ts + rr) :=
    sub32_of_le _ _ (by omega) hrom
  have h4 : sub32 (romSize - 2 * (ts + rr)) nr = romSize - 2 * (ts + rr) - nr :=
    sub32_of_le _ _ (by omega) (by omega)
  have h5 : sub32 romSize ts = romSize - ts := sub32_of_le _ _ (by omega) hrom
  have h6 : sub32 (romSize - ts) ts = romSize - ts - ts :=
    sub32_of_le _ _ (by omega) (by omega)
  have h7 : sub32 (romSize - ts - ts) rr = romSize - ts - ts - rr :=
    sub32_of_le _ _ (by omega) (by omega)
  have h8 : sub32 (romSize - ts - ts - rr) rr = romSize - ts - ts - rr - rr :=
    sub32_of_le _ _ (by omega) (by omega)
  cases b <;> simp [computeLayoutOffsets, h1, h2, h3, h4, h5, h6, h7, h8] <;> omega

/-! ## Claim C1: overflow rejection -/

/-- Claim C1 counterexample: with `romSize = 0x1000` and all three region sizes
`0x1000` we have `2*(topSwapSize+redundantSize)+nonRedundantSize > romSize`,
yet `GetFirmwareUpdateInfo` does not fail with any error: it returns success
and produces a 3-entry region list. -/
theorem GetFirmwareUpdateInfo_overflow_not_rejected :
    2 * (0x1000 + 0x1000) + 0x1000 > 0x1000 ∧
    planBuilt (GetFirmwareUpdateInfo 0 0x40 ⟨0, 0x7E⟩ (some ⟨0x1000, none, none⟩)
      0x1000 0x1000 0x1000) = true ∧
    (planRegionList (GetFirmwareUpdateInfo 0 0x40 ⟨0, 0x7E⟩ (some ⟨0x1000, none, none⟩)
      0x1000 0x1000 0x1000)).length = 3 := by
  decide

/-- Claim C1 amended: `GetFirmwareUpdateInfo` performs no size validation at
all.  Whenever the flash map pointer is non-NULL it returns success and
produces a region list of at least two regions, for every input — including
zero sizes and sizes with `2*(topSwapSize+redundantSize)+nonRedundantSize >
romSize`, for which the offsets simply wrap around mod 2^32. -/
theorem GetFirmwareUpdateInfo_never_fails_with_flashmap (imageHdr hdrSize : Nat)
    (fwPolicy : FIRMWARE_UPDATE_POLICY) (fm : FLASH_MAP) (ts rr nr : Nat) :
    planBuilt (GetFirmwareUpdateInfo imageHdr hdrSize fwPolicy (some fm) ts rr nr) = true ∧
    2 ≤ (planRegionList (GetFirmwareUpdateInfo imageHdr hdrSize fwPolicy
      (some fm) ts rr nr)).length := by
  refine ⟨?_, ?_⟩ <;>
    (simp only [GetFirmwareUpdateInfo]; split <;> simp [planBuilt, planRegionList])

/-! ## Claim C2: regions disjoint and within the ROM -/

/-- Claim C2: under the precondition (all sizes positive and
`2*(topSwapSize+redundantSize)+nonRedundantSize ≤ romSize`, with `romSize` a
`UINT32` value), the plan `GetFirmwareUpdateInfo` computes — for either target
copy and any state-machine phase — has pairwise disjoint region intervals
`[DestinationOffset, DestinationOffset+Size)`, each contained in
`[0, romSize)`. -/
theorem GetFirmwareUpdateInfo_regions_disjoint_and_within (imageHdr hdrSize : Nat)
    (fwPolicy : FIRMWARE_UPDATE_POLICY) (fm : FLASH_MAP) (ts rr nr : Nat)
    (hts : 0 < ts) (hrr : 0 < rr) (hnr : 0 < nr)
    (hfit : 2 * (ts + rr) + nr ≤ fm.romSize) (hrom : fm.romSize < UINT32_LIMIT) :
    planDisjoint (GetFirmwareUpdateInfo imageHdr hdrSize fwPolicy (some fm) ts rr nr) ∧
    planWithin (GetFirmwareUpdateInfo imageHdr hdrSize fwPolicy (some fm) ts rr nr)
      fm.romSize := by
  have hl := computeLayoutOffsets_spec fm.romSize ts rr nr
    (fwPolicy.updatePartitionB == 1) hfit hrom
  unfold planDisjoint planWithin
  simp only [GetFirmwareUpdateInfo, hl]
  cases hb : (fwPolicy.updatePartitionB == 1) <;>
    split <;>
      simp [planRegionList, List.pairwise_cons, regionsDisjoint, regionWithin, hb] <;>
        omega

/-- Claim C2 witness: the theorem applied at the concrete scenario
`romSize = 0x1000000`, `topSwapSize = 0x10000`, `redundantSize = 0x100000`,
`nonRedundantSize = 0x200000`. -/
theorem GetFirmwareUpdateInfo_regions_disjoint_and_within_witness :
    planDisjoint (GetFirmwareUpdateInfo 0 0x40 ⟨0, 0x7E⟩ (some ⟨0x1000000, none, none⟩)
      0x10000 0x100000 0x200000) ∧
    planWithin (GetFirmwareUpdateInfo 0 0x40 ⟨0, 0x7E⟩ (some ⟨0x1000000, none, none⟩)
      0x10000 0x100000 0x200000) 0x1000000 :=
  GetFirmwareUpdateInfo_regions_disjoint_and_within 0 0x40 ⟨0, 0x7E⟩
    ⟨0x1000000, none, none⟩ 0x10000 0x100000 0x200000
    (by decide) (by decide) (by decide) (by decide) (by decide)

/-! ## Claim C3: concrete layout scenario -/

/-- Claim C3 counterexample: at `romSize=0x1000000`, `topSwapSize=0x10000`,
`redundantSize=0x100000`, `nonRedundantSize=0x200000`, target copy A, the
computed destination offsets are NOT `(0xFF0000, 0xEF0000, 0xC00000)` as the
claim states: the redundant offset is `0xEE0000` (the claim forgot the
top-swap backup) and the non-redundant offset is `0xBE0000`. -/
theorem layout_concrete_scenario_counterexample :
    ¬ ((planRegionList (GetFirmwareUpdateInfo 0 0x40 ⟨0, 0x7E⟩
        (some ⟨0x1000000, none, none⟩) 0x10000 0x100000 0x200000)).map
      FIRMWARE_UPDATE_REGION.toUpdateAddress = [0xFF0000, 0xEF0000, 0xC00000]) := by
  decide

/-- Claim C3 amended: with `romSize=0x1000000`, `topSwapSize=0x10000`,
`redundantSize=0x100000`, `nonRedundantSize=0x200000` the layout computation
yields for target copy A `topSwapOffset=0xFF0000`, `redundantOffset=0xEE0000`,
`nonRedundantOffset=0xBE0000`, and for target copy B `topSwapOffset=0xFE0000`,
`redundantOffset=0xDE0000`, `nonRedundantOffset=0xBE0000` (unchanged). -/
theorem layout_concrete_scenario_amended :
    (planRegionList (GetFirmwareUpdateInfo 0 0x40 ⟨0, 0x7E⟩
        (some ⟨0x1000000, none, none⟩) 0x10000 0x100000 0x200000)).map
      FIRMWARE_UPDATE_REGION.toUpdateAddress = [0xFF0000, 0xEE0000, 0xBE0000] ∧
    (planRegionList (GetFirmwareUpdateInfo 0 0x40 ⟨1, 0x7E⟩
        (some ⟨0x1000000, none, none⟩) 0x10000 0x100000 0x200000)).map
      FIRMWARE_UPDATE_REGION.toUpdateAddress = [0xFE0000, 0xDE0000, 0xBE0000] := by
  decide

/-! ## Claim C4: copy symmetry -/

/-- Claim C4: for every size tuple satisfying the layout precondition, the
copy-B layout has `topSwapOffset` exactly `topSwapSize` lower and
`redundantOffset` exactly `redundantSize` lower than the copy-A layout, and
the same `nonRedundantOffset`. -/
theorem computeLayoutOffsets_copy_symmetry (romSize ts rr nr : Nat)
    (hts : 0 < ts) (hrr : 0 < rr) (hnr : 0 < nr)
    (hfit : 2 * (ts + rr) + nr ≤ romSize) (hrom : romSize < UINT32_LIMIT) :
    (computeLayoutOffsets romSize ts rr nr false).topSwapRegionOffset =
      (computeLayoutOffsets romSize ts rr nr true).topSwapRegionOffset + ts ∧
    (computeLayoutOffsets romSize ts rr nr false).redundantRegionOffset =
      (computeLayoutOffsets romSize ts rr nr true).redundantRegionOffset + rr ∧
    (computeLayoutOffsets romSize ts rr nr true).nonRedundantRegionOffset =
      (computeLayoutOffsets romSize ts rr nr false).nonRedundantRegionOffset := by
  rw [computeLayoutOffsets_spec romSize ts rr nr false hfit hrom,
    computeLayoutOffsets_spec romSize ts rr nr true hfit hrom]
  refine ⟨?_, ?_, ?_⟩ <;> simp <;> omega

/-- Claim C4 witness: the theorem applied at the concrete scenario. -/
theorem computeLayoutOffsets_copy_symmetry_witness :
    (computeLayoutOffsets 0x1000000 0x10000 0x100000 0x200000 false).topSwapRegionOffset =
      (computeLayoutOffsets 0x1000000 0x10000 0x100000 0x200000 true).topSwapRegionOffset
        + 0x10000 ∧
    (computeLayoutOffsets 0x1000000 0x10000 0x100000 0x200000 false).redundantRegionOffset =
      (computeLayoutOffsets 0x1000000 0x10000 0x100000 0x200000 true).redundantRegionOffset
        + 0x100000 ∧
    (computeLayoutOffsets 0x1000000 0x10000 0x100000 0x200000 true).nonRedundantRegionOffset =
      (computeLayoutOffsets 0x1000000 0x10000 0x100000 0x200000 false).nonRedundantRegionOffset :=
  computeLayoutOffsets_copy_symmetry 0x1000000 0x10000 0x100000 0x200000
    (by decide) (by decide) (by decide) (by decide) (by decide)

/-! ## Claim C5: phase gating of the region count -/

/-- Claim C5: `GetFirmwareUpdateInfo` returns a plan with `RegionCount`
exactly 3 when `FwPolicy.Fields.StateMachine` is `FW_UPDATE_SM_PART_A` or
`FW_UPDATE_SM_PART_B` and exactly 2 otherwise, and the region list has
exactly that many entries. -/
theorem GetFirmwareUpdateInfo_phase_gating (imageHdr hdrSize : Nat)
    (fwPolicy : FIRMWARE_UPDATE_POLICY) (fm : FLASH_MAP) (ts rr nr : Nat) :
    planRegionCount (GetFirmwareUpdateInfo imageHdr hdrSize fwPolicy (some fm) ts rr nr) =
      (if fwPolicy.stateMachine = FW_UPDATE_SM_PART_A ∨
          fwPolicy.stateMachine = FW_UPDATE_SM_PART_B then 3 else 2) ∧
    (planRegionList (GetFirmwareUpdateInfo imageHdr hdrSize fwPolicy
        (some fm) ts rr nr)).length =
      planRegionCount (GetFirmwareUpdateInfo imageHdr hdrSize fwPolicy (some fm) ts rr nr) := by
  by_cases h : fwPolicy.stateMachine = FW_UPDATE_SM_PART_A ∨
      fwPolicy.stateMachine = FW_UPDATE_SM_PART_B
  · have hb : (fwPolicy.stateMachine == FW_UPDATE_SM_PART_A ||
        fwPolicy.stateMachine == FW_UPDATE_SM_PART_B) = true := by
      rcases h with h | h <;> simp [h]
    simp [GetFirmwareUpdateInfo, planRegionCount, planRegionList, hb, h]
  · push_neg at h
    have hb : (fwPolicy.stateMachine == FW_UPDATE_SM_PART_A ||
        fwPolicy.stateMachine == FW_UPDATE_SM_PART_B) = false := by
      simp [beq_eq_false_iff_ne, h.1, h.2]
    simp [GetFirmwareUpdateInfo, planRegionCount, planRegionList, hb, h.1, h.2]

/-! ## Claim C6: region source addresses -/

/-- Claim C6: the claim fails on the code.  At `ImageHdr = 0x100000000` (a
pointer with bits above the low 32 set) with the concrete scenario sizes,
regions 0 and 1 compute `SourceAddress` from the full `UINTN` pointer
(`0x100FF0040`, `0x100EE0040`), but region 2 casts `ImageHdr` through
`UINT32` first, so its `SourceAddress` is `0xBE0040` instead of the
full-width value `ImageHdr + hdrSize + offset = 0x100BE0040`. -/
theorem GetFirmwareUpdateInfo_region2_truncates_pointer :
    (planRegionList (GetFirmwareUpdateInfo 0x100000000 0x40 ⟨0, 0x7E⟩
        (some ⟨0x1000000, none, none⟩) 0x10000 0x100000 0x200000)).map
      FIRMWARE_UPDATE_REGION.sourceAddress = [0x100FF0040, 0x100EE0040, 0xBE0040] ∧
    (planRegionList (GetFirmwareUpdateInfo 0x100000000 0x40 ⟨0, 0x7E⟩
        (some ⟨0x1000000, none, none⟩) 0x10000 0x100000 0x200000)).map
      FIRMWARE_UPDATE_REGION.toUpdateAddress = [0xFF0000, 0xEE0000, 0xBE0000] ∧
    0x100000000 + 0x40 + 0xBE0000 = 0x100BE0040 := by
  decide

/-! ## Claim C7: Stage1A backup-to-primary fallback -/

/-- Claim C7: with `IsBackupPartition = TRUE`, when no backup entry exists for
Stage1A the call behaves exactly as the primary-copy call (it falls back to
the primary copy's data), and it returns `EFI_NOT_FOUND` precisely when
neither the backup nor the primary entry exists in the flash map. -/
theorem PlatformGetStage1AOffset_fallback (imageHdr hdrSize : Nat) (fm : FLASH_MAP) :
    (fm.stage1ABackup = none →
      PlatformGetStage1AOffset imageHdr hdrSize true (some fm) =
        PlatformGetStage1AOffset imageHdr hdrSize false (some fm)) ∧
    (PlatformGetStage1AOffset imageHdr hdrSize true (some fm) = .error .EFI_NOT_FOUND ↔
      fm.stage1ABackup = none ∧ fm.stage1APrimary = none) := by
  rcases fm with ⟨rom, prim, back⟩
  rcases back with _ | b <;> rcases prim with _ | pr <;>
    simp [PlatformGetStage1AOffset, stage1ALookup, GetComponentInfoByPartition]

/-- Claim C7 witness: with a primary entry and no backup entry, the
backup-copy call equals the primary-copy call. -/
theorem PlatformGetStage1AOffset_fallback_witness :
    PlatformGetStage1AOffset 0x1000 0x40 true
        (some ⟨0x1000000, some (0xFFFC0000, 0x8000), none⟩) =
      PlatformGetStage1AOffset 0x1000 0x40 false
        (some ⟨0x1000000, some (0xFFFC0000, 0x8000), none⟩) :=
  (PlatformGetStage1AOffset_fallback 0x1000 0x40
    ⟨0x1000000, some (0xFFFC0000, 0x8000), none⟩).1 rfl

/-! ## Claim C8: Stage1A offset arithmetic -/

/-- Claim C8: on a successful lookup returning `(b, s)`, and with the
arithmetic staying in `UINT32` range (`0x100000000 - b ≤ romSize < 2^32`, and
the final sum below 2^32), the call returns base
`ImageHdr + sizeof(EFI_FW_MGMT_CAP_IMAGE_HEADER) + romOffset` with
`romOffset = romSize - (0x100000000 - b)`, and size `s` from the flash map. -/
theorem PlatformGetStage1AOffset_success_value (imageHdr hdrSize : Nat) (isB : Bool)
    (fm : FLASH_MAP) (b s : Nat)
    (hlook : stage1ALookup fm isB = .ok (b, s))
    (hb : b < UINT32_LIMIT) (hrom : fm.romSize < UINT32_LIMIT)
    (hlo : 0x100000000 - b ≤ fm.romSize)
    (hhi : imageHdr + hdrSize + (fm.romSize - (0x100000000 - b)) < UINT32_LIMIT) :
    PlatformGetStage1AOffset imageHdr hdrSize isB (some fm) =
      .ok (imageHdr + hdrSize + (fm.romSize - (0x100000000 - b)), s) := by
  have hL32 : UINT32_LIMIT = 4294967296 := rfl
  have hL64 : UINT64_LIMIT = 18446744073709551616 := rfl
  have hLN : UINTN_LIMIT = UINT64_LIMIT := rfl
  have hbm : b % UINT32_LIMIT = b := Nat.mod_eq_of_lt hb
  have hrm : fm.romSize % UINT32_LIMIT = fm.romSize := Nat.mod_eq_of_lt hrom
  have hd1 : (0x100000000 - b) % UINT64_LIMIT = 0x100000000 - b :=
    Nat.mod_eq_of_lt (by omega)
  have hw1 : (fm.romSize + (UINT64_LIMIT - (0x100000000 - b))) % UINT64_LIMIT =
      fm.romSize - (0x100000000 - b) :=
    wrapSub_eq UINT64_LIMIT fm.romSize (0x100000000 - b) hlo (by omega)
  have hsmall : (fm.romSize - (0x100000000 - b)) % UINT32_LIMIT =
      fm.romSize - (0x100000000 - b) := Nat.mod_eq_of_lt (by omega)
  have hfin1 : (imageHdr + hdrSize + (fm.romSize - (0x100000000 - b))) % UINTN_LIMIT =
      imageHdr + hdrSize + (fm.romSize - (0x100000000 - b)) :=
    Nat.mod_eq_of_lt (by omega)
  have hfin2 : (imageHdr + hdrSize + (fm.romSize - (0x100000000 - b))) % UINT32_LIMIT =
      imageHdr + hdrSize + (fm.romSize - (0x100000000 - b)) := Nat.mod_eq_of_lt hhi
  simp only [PlatformGetStage1AOffset]
  rw [hlook]
  simp only [hbm, hrm, hd1, hw1, hsmall, hfin1, hfin2]

/-- Claim C8 witness: the theorem applied at a concrete flash map whose
Stage1A primary entry is `(0xFFFC0000, 0x8000)` in a 16 MiB ROM. -/
theorem PlatformGetStage1AOffset_success_value_witness :
    PlatformGetStage1AOffset 0x1000 0x40 false
        (some ⟨0x1000000, some (0xFFFC0000, 0x8000), none⟩) =
      .ok (0x1000 + 0x40 + (0x1000000 - (0x100000000 - 0xFFFC0000)), 0x8000) :=
  PlatformGetStage1AOffset_success_value 0x1000 0x40 false
    ⟨0x1000000, some (0xFFFC0000, 0x8000), none⟩ 0xFFFC0000 0x8000 rfl
    (by decide) (by decide) (by decide) (by decide)

/-! ## Claims C9 and C10: SetBootPartition -/

/-- Bit positions at or above 1 are unchanged by `||| 1`. -/
theorem testBit_lor_one (d i : Nat) (hi : 1 ≤ i) : (d ||| 1).testBit i = d.testBit i := by
  obtain ⟨j, rfl⟩ : ∃ j, i = j + 1 := ⟨i - 1, by omega⟩
  rw [Nat.testBit_lor, Nat.testBit_add_one 1 j]
  simp

/-- For `d` in `UINT32` range, bit positions at or above 1 are unchanged by
masking with `0xFFFFFFFE` (that is, `~BIT0` at `UINT32` width). -/
theorem testBit_land_mask (d i : Nat) (hd : d < UINT32_LIMIT) (hi : 1 ≤ i) :
    (d &&& 0xFFFFFFFE).testBit i = d.testBit i := by
  obtain ⟨j, rfl⟩ : ∃ j, i = j + 1 := ⟨i - 1, by omega⟩
  rw [Nat.testBit_land, Nat.testBit_add_one 0xFFFFFFFE j]
  have h2 : (0xFFFFFFFE : Nat) / 2 = 2 ^ 31 - 1 := by norm_num
  rw [h2, Nat.testBit_two_pow_sub_one]
  by_cases hj : j < 31
  · simp [hj]
  · have hz : d.testBit (j + 1) = false := by
      refine Nat.testBit_lt_two_pow ?_
      have hL : UINT32_LIMIT = 2 ^ 32 := by norm_num [UINT32_LIMIT]
      calc d < UINT32_LIMIT := hd
        _ = 2 ^ 32 := hL
        _ ≤ 2 ^ (j + 1) := Nat.pow_le_pow_right (by norm_num) (by omega)
    simp [hz, hj]

/-- Claim C9: `SetBootPartition` returns `EFI_SUCCESS` for every partition
argument and every hardware behaviour (in particular regardless of whether the
read-back value matches the written one); it reads the register, writes back
the read value with bit 0 set for `BackupPartition` and bit 0 cleared for
`PrimaryPartition`, and the recorded read-back is the register value observed
after that write. -/
theorem SetBootPartition_bit0_and_status (hw : List Nat → Nat) (p : Nat) :
    (SetBootPartition hw p).status = .EFI_SUCCESS ∧
    (SetBootPartition hw BackupPartition).written =
      (SetBootPartition hw BackupPartition).firstRead ||| BIT0 ∧
    ((SetBootPartition hw BackupPartition).written).testBit 0 = true ∧
    (SetBootPartition hw PrimaryPartition).written =
      (SetBootPartition hw PrimaryPartition).firstRead &&& 0xFFFFFFFE ∧
    ((SetBootPartition hw PrimaryPartition).written).testBit 0 = false ∧
    (SetBootPartition hw p).readBack = hw [(SetBootPartition hw p).written] % UINT32_LIMIT := by
  refine ⟨rfl, rfl, ?_, rfl, ?_, rfl⟩
  · show ((hw [] % UINT32_LIMIT) ||| BIT0).testBit 0 = true
    rw [Nat.testBit_lor]
    simp [BIT0]
  · show ((hw [] % UINT32_LIMIT) &&& 0xFFFFFFFE).testBit 0 = false
    rw [Nat.testBit_land]
    simp

/-- Claim C10: for every partition argument the value written back agrees
with the value read on every bit other than bit 0; and when the argument is
neither `PrimaryPartition` nor `BackupPartition` the register is rewritten
with its original value entirely unchanged and the call still succeeds. -/
theorem SetBootPartition_frame (hw : List Nat → Nat) (p : Nat) :
    (∀ i, 1 ≤ i →
      ((SetBootPartition hw p).written).testBit i =
        ((SetBootPartition hw p).firstRead).testBit i) ∧
    (p ≠ PrimaryPartition → p ≠ BackupPartition →
      (SetBootPartition hw p).written = (SetBootPartition hw p).firstRead ∧
      (SetBootPartition hw p).status = .EFI_SUCCESS) := by
  constructor
  · intro i hi
    show (if p == BackupPartition then (hw [] % UINT32_LIMIT) ||| BIT0
        else if p == PrimaryPartition then (hw [] % UINT32_LIMIT) &&& 0xFFFFFFFE
        else hw [] % UINT32_LIMIT).testBit i = (hw [] % UINT32_LIMIT).testBit i
    cases hB : (p == BackupPartition) with
    | true => simp only [if_true]; exact testBit_lor_one _ i hi
    | false =>
      cases hP : (p == PrimaryPartition) with
      | true =>
        simp only [hB, hP, Bool.false_eq_true, if_false, if_true]
        exact testBit_land_mask _ i (Nat.mod_lt _ (by norm_num [UINT32_LIMIT])) hi
      | false => simp only [hB, hP, Bool.false_eq_true, if_false]
  · intro h0 h1
    have hP : (p == PrimaryPartition) = false := beq_eq_false_iff_ne.mpr h0
    have hB : (p == BackupPartition) = false := beq_eq_false_iff_ne.mpr h1
    constructor
    · show (if p == BackupPartition then (hw [] % UINT32_LIMIT) ||| BIT0
          else if p == PrimaryPartition then (hw [] % UINT32_LIMIT) &&& 0xFFFFFFFE
          else hw [] % UINT32_LIMIT) = hw [] % UINT32_LIMIT
      simp only [hB, hP, Bool.false_eq_true, if_false]
    · rfl

/-- A constant register model used to instantiate `SetBootPartition_frame`. -/
def hwConst : List Nat → Nat := fun _ => 0xABCD1234

/-- Claim C10 witness: the frame theorem applied to a concrete register value,
bit 5, and both the `BackupPartition` argument and the out-of-range argument
`2`. -/
theorem SetBootPartition_frame_witness :
    ((SetBootPartition hwConst BackupPartition).written).testBit 5 =
      ((SetBootPartition hwConst BackupPartition).firstRead).testBit 5 ∧
    (SetBootPartition hwConst 2).written = (SetBootPartition hwConst 2).firstRead ∧
    (SetBootPartition hwConst 2).status = .EFI_SUCCESS :=
  ⟨(SetBootPartition_frame hwConst BackupPartition).1 5 (by decide),
   (SetBootPartition_frame hwConst 2).2 (by decide) (by decide)⟩
